import Mathlib

/-!
Verification of the binding dispatch and coercion engine of this repository
(WebIDL-style bindings exercised by `crates/webidl-tests/simple.rs`) and of the
webaudio example (`examples/webaudio/src/lib.rs`).

The dispatch/coercion engine itself (the WebIDL backend and the generated
binding code) is not present under `src/`; only its test suite is.  Following
the specification, the engine components are modelled here from the spec's
words (each such definition carries a doc comment beginning
`Modelled from the spec:`).  The webaudio example code is embedded directly
from `examples/webaudio/src/lib.rs`.
-/

namespace BindingModel

/-- Modelled from the spec: the closed tagged-variant value type for
dynamic/duck-typed argument values (spec section 9): boolean, number,
string, null/absent marker, and opaque handle to an external object.
The engine implementation consuming these values is not under `src/`. -/
inductive Value where
  | vbool (b : Bool)
  | vnum (q : ℚ)
  | vstr (s : String)
  | vnull
  | vhandle (iface : String) (id : ℕ)
  deriving DecidableEq

mutual

/-- Modelled from the spec: TargetType (spec section 3): one of boolean,
integer-of-width-W, floating-point, string, nullable(T), union(T1..Tn),
opaque-handle-to-external-object.  The union member list is the ordered
list of declared member types. -/
inductive TargetType where
  | tbool
  | tint (width : ℕ)
  | tfloat
  | tstr
  | tnullable (t : TargetType)
  | tunion (ts : TypeList)
  | thandle (iface : String)
  deriving DecidableEq

/-- Modelled from the spec: the ordered list T1..Tn of a union's declared
member types (spec section 3). -/
inductive TypeList where
  | nil
  | cons (t : TargetType) (ts : TypeList)
  deriving DecidableEq

end

/-- Modelled from the spec: a coerced value, tagged with the target kind the
coercion layer produced (spec section 4.1). -/
inductive Coerced where
  | cbool (b : Bool)
  | cint (width : ℕ) (n : ℤ)
  | cfloat (q : ℚ)
  | cstr (s : String)
  | cnone
  | chandle (iface : String) (id : ℕ)
  deriving DecidableEq

/-- Modelled from the spec: the coercion error kinds of the error taxonomy
(spec section 7): TypeMismatch and RangeError for out-of-range integers. -/
inductive CoercionError where
  | typeMismatch
  | rangeError
  deriving DecidableEq

/-- Smallest value of a signed integer of width `w`. -/
def intMin (w : ℕ) : ℤ := -(2 ^ (w - 1))

/-- Largest value of a signed integer of width `w`. -/
def intMax (w : ℕ) : ℤ := 2 ^ (w - 1) - 1

mutual

/-- Modelled from the spec: `coerce(value, target_type)` of the Type Coercion
Layer (spec section 4.1), whose implementation is not under `src/`:
primitives must already carry the target primitive kind; integers coerce with
width/range checks (out of range fails with the RangeError kind); nullable(T)
maps the explicit no-value marker to None and otherwise delegates to T;
union(T1..Tn) tries each member in declared order, first success wins;
opaque handles must already be an instance of the expected interface. -/
def coerce : Value → TargetType → Except CoercionError Coerced
  | .vbool b, .tbool => .ok (.cbool b)
  | .vnum q, .tint w =>
      if q.den = 1 then
        if intMin w ≤ q.num ∧ q.num ≤ intMax w then .ok (.cint w q.num)
        else .error .rangeError
      else .error .typeMismatch
  | .vnum q, .tfloat => .ok (.cfloat q)
  | .vstr s, .tstr => .ok (.cstr s)
  | .vnull, .tnullable _ => .ok .cnone
  | .vbool b, .tnullable t => coerce (.vbool b) t
  | .vnum q, .tnullable t => coerce (.vnum q) t
  | .vstr s, .tnullable t => coerce (.vstr s) t
  | .vhandle i n, .tnullable t => coerce (.vhandle i n) t
  | v, .tunion ts => coerceUnion v ts
  | .vhandle i n, .thandle j =>
      if i = j then .ok (.chandle i n) else .error .typeMismatch
  | _, _ => .error .typeMismatch

/-- Modelled from the spec: the ordered first-match rule for union members
(spec section 4.1): try each member type in the union's declared order,
the first successful coercion wins; fail only if no member matches. -/
def coerceUnion : Value → TypeList → Except CoercionError Coerced
  | _, .nil => .error .typeMismatch
  | v, .cons t ts =>
      match coerce v t with
      | .ok c => .ok c
      | .error _ => coerceUnion v ts

end

/-- Modelled from the spec: a ParameterSpec (spec section 3) has a TargetType,
an optionality flag and, if optional, an optional declared default value. -/
structure ParameterSpec where
  ty : TargetType
  optionalFlag : Bool
  defaultValue : Option Value
  deriving DecidableEq

/-- Modelled from the spec: a caller's actual argument is either an explicit
value or the omitted marker (spec sections 3 and 4.1 distinguish an argument
that is omitted from one that is explicitly null). -/
inductive Arg where
  | given (v : Value)
  | omitted
  deriving DecidableEq

/-- Modelled from the spec: resolution-time error kinds of the error taxonomy
(spec section 7) used by the Overload Resolver. -/
inductive ResolveError where
  | arityError
  | noMatchingOverload
  deriving DecidableEq

/-- True when the argument is an explicit value rather than the omitted
marker. -/
def Arg.isGiven : Arg → Bool
  | .given _ => true
  | .omitted => false

/-- Modelled from the spec: a gap — an omitted argument followed by a later
explicit argument — is a caller error (spec section 4.1: "omitted" is only
legal for trailing optional parameters). -/
def hasGap : List Arg → Bool
  | [] => false
  | .given _ :: rest => hasGap rest
  | .omitted :: rest => rest.any Arg.isGiven

/-- The longest leading run of explicitly given argument values. -/
def givenValues : List Arg → List Value
  | .given v :: rest => v :: givenValues rest
  | _ => []

/-- Modelled from the spec: the required-parameter count of a signature
(spec section 4.3), the number of non-optional parameters. -/
def requiredCount (ps : List ParameterSpec) : ℕ :=
  (ps.filter (fun p => !p.optionalFlag)).length

/-- Modelled from the spec: coerce every actual argument against the
signature's ParameterSpecs in order (spec section 4.3); trailing parameters
with no actual argument are filled from their declared defaults (the declared
default, or the no-value marker when none is declared), themselves coerced
against the parameter's TargetType. -/
def coerceArgs : List ParameterSpec → List Value → Except CoercionError (List Coerced)
  | [], [] => .ok []
  | p :: ps, v :: vs => do
      let c ← coerce v p.ty
      let cs ← coerceArgs ps vs
      .ok (c :: cs)
  | p :: ps, [] =>
      if p.optionalFlag then do
        let c ← coerce (p.defaultValue.getD .vnull) p.ty
        let cs ← coerceArgs ps []
        .ok (c :: cs)
      else .error .typeMismatch
  | [], _ :: _ => .error .typeMismatch

/-- Modelled from the spec: resolution of a call against one declared
OverloadSignature (spec sections 4.1 and 4.3), as performed by the Overload
Resolver, whose implementation is not under `src/`: a gap (an omitted
argument followed by a later explicit one) fails with ArityError; otherwise
the explicit arguments must number between the required-parameter count and
the total parameter count (else ArityError), every argument is coerced in
order against the ParameterSpecs, and omitted trailing optionals are filled
from their declared defaults. -/
def resolveSignature (ps : List ParameterSpec) (args : List Arg) :
    Except ResolveError (List Coerced) :=
  if hasGap args then .error .arityError
  else
    let vs := givenValues args
    if requiredCount ps ≤ vs.length ∧ vs.length ≤ ps.length then
      match coerceArgs ps vs with
      | .ok cs => .ok cs
      | .error _ => .error .noMatchingOverload
    else .error .arityError

/-- Modelled from the spec: the parameter list of
`OptionalAndUnionArguments.m(DOMString a, optional union(boolean, DOMString)
b = true, optional i16 c = 123, optional union(i64, boolean) d = 456)`
(spec section 8 concrete scenario; the WebIDL declaration itself is not
under `src/`). -/
def oauParams : List ParameterSpec :=
  [ ⟨.tstr, false, none⟩,
    ⟨.tunion (.cons .tbool (.cons .tstr .nil)), true, some (.vbool true)⟩,
    ⟨.tint 16, true, some (.vnum 123)⟩,
    ⟨.tunion (.cons (.tint 64) (.cons .tbool .nil)), true, some (.vnum 456)⟩ ]

/-- Modelled from the spec: calling `OptionalAndUnionArguments.m` resolves
the actual arguments against its single declared signature. -/
def oauM (args : List Arg) : Except ResolveError (List Coerced) :=
  resolveSignature oauParams args

end BindingModel

namespace BindingModel

/-- C1: coercion to a union tries the members in the union's declared order
and the first successful coercion wins; calling `OptionalAndUnionArguments.m`
with `("abc", false, 5, 10)` resolves parameter `b` to the boolean member and
parameter `d` to the 64-bit integer member (`cint 64 10`), never to
boolean. -/
theorem union_coercion_declared_order_first_wins :
    (∀ (v : Value) (t : TargetType) (ts : TypeList),
      coerce v (.tunion (.cons t ts)) =
        match coerce v t with
        | .ok c => .ok c
        | .error _ => coerce v (.tunion ts)) ∧
    oauM [.given (.vstr "abc"), .given (.vbool false), .given (.vnum 5),
          .given (.vnum 10)] =
      .ok [.cstr "abc", .cbool false, .cint 16 5, .cint 64 10] ∧
    coerce (.vbool false) (.tunion (.cons .tbool (.cons .tstr .nil))) =
      .ok (.cbool false) ∧
    coerce (.vnum 10) (.tunion (.cons (.tint 64) (.cons .tbool .nil))) =
      .ok (.cint 64 10) := by
  refine ⟨fun v t ts => ?_, rfl, rfl, rfl⟩
  cases v <;> rfl

/-- C2: omitting any suffix of the trailing optional parameters of
`OptionalAndUnionArguments.m` succeeds, with the declared defaults filled in
(`m("abc")` behaves exactly as `m("abc", true, 123, 456)`), whereas any
argument list with a gap — an omitted argument followed by a later explicit
one — fails with ArityError, for every signature. -/
theorem trailing_optional_omission_ok_gap_arity_error :
    (∀ (ps : List ParameterSpec) (args : List Arg),
      hasGap args = true → resolveSignature ps args = .error .arityError) ∧
    oauM [.given (.vstr "abc")] =
      .ok [.cstr "abc", .cbool true, .cint 16 123, .cint 64 456] ∧
    oauM [.given (.vstr "abc")] =
      oauM [.given (.vstr "abc"), .given (.vbool true), .given (.vnum 123),
            .given (.vnum 456)] ∧
    oauM [.given (.vstr "abc"), .given (.vbool false)] =
      .ok [.cstr "abc", .cbool false, .cint 16 123, .cint 64 456] ∧
    oauM [.given (.vstr "abc"), .given (.vbool false), .given (.vnum 5)] =
      .ok [.cstr "abc", .cbool false, .cint 16 5, .cint 64 456] ∧
    oauM [.given (.vstr "abc"), .omitted, .given (.vnum 5)] =
      .error .arityError := by
  refine ⟨fun ps args h => ?_, rfl, rfl, rfl, rfl, rfl⟩
  simp [resolveSignature, h]

/-- Witness for C2: the gap rule applied at a concrete input: omitting `b`
and then passing `c` explicitly is an ArityError. -/
theorem trailing_optional_omission_ok_gap_arity_error_witness :
    resolveSignature oauParams [.given (.vstr "abc"), .omitted, .given (.vnum 5)] =
      .error .arityError :=
  trailing_optional_omission_ok_gap_arity_error.1 oauParams
    [.given (.vstr "abc"), .omitted, .given (.vnum 5)] rfl

/-- Modelled from the spec: whether an instance's indexed entries contain an
entry for index `i`. -/
def hasEntry (st : List (ℤ × ℤ)) (i : ℤ) : Bool :=
  st.any (fun p => p.1 == i)

/-- Modelled from the spec: the indexed getter of an indexable interface
(spec section 4.2); its implementation is not under `src/`.  On an index with
no entry it returns the declared absent-sentinel `-1` for integer-valued
getters, never an error. -/
def indexGet (st : List (ℤ × ℤ)) (i : ℤ) : ℤ :=
  match st.find? (fun p => p.1 == i) with
  | some p => p.2
  | none => -1

/-- Modelled from the spec: the indexed setter `setter(index, value)`
(spec section 4.2): stores `v` as the entry for index `i`. -/
def indexSet (st : List (ℤ × ℤ)) (i v : ℤ) : List (ℤ × ℤ) :=
  (i, v) :: st.filter (fun p => p.1 != i)

/-- Modelled from the spec: the indexed deleter `deleter(index)`
(spec section 4.2): removes the entry for index `i`. -/
def indexDelete (st : List (ℤ × ℤ)) (i : ℤ) : List (ℤ × ℤ) :=
  st.filter (fun p => p.1 != i)

/-- C3: on any indexed-entry state, the getter returns the absent-sentinel
`-1` (never an error — it is total) on an index with no entry; after
`set i v`, `get i` returns `v`; after `delete i`, `get i` returns the
absent-sentinel again; and these reproduce the `Indexing` scenario
`get 123 = -1`, then `set 123 456; get 123 = 456`, then
`delete 123; get 123 = -1`. -/
theorem index_get_set_delete :
    (∀ (st : List (ℤ × ℤ)) (i : ℤ), hasEntry st i = false → indexGet st i = -1) ∧
    (∀ (st : List (ℤ × ℤ)) (i v : ℤ), indexGet (indexSet st i v) i = v) ∧
    (∀ (st : List (ℤ × ℤ)) (i : ℤ), indexGet (indexDelete st i) i = -1) ∧
    indexGet [] 123 = -1 ∧
    indexGet (indexSet [] 123 456) 123 = 456 ∧
    indexGet (indexDelete (indexSet [] 123 456) 123) 123 = -1 := by
  refine ⟨fun st i h => ?_, fun st i v => ?_, fun st i => ?_, rfl, rfl, rfl⟩
  · have hn : st.find? (fun p => p.1 == i) = none := by
      rw [List.find?_eq_none]
      intro x hx
      have := (List.any_eq_false.mp h) x hx
      simpa using this
    simp [indexGet, hn]
  · simp [indexGet, indexSet, List.find?]
  · have hn : (indexDelete st i).find? (fun p => p.1 == i) = none := by
      rw [List.find?_eq_none]
      intro x hx
      have := (List.mem_filter.mp hx).2
      simpa using this
    simp [indexGet, hn]

/-- Witness for C3: the getter applied on the empty entry state, where index
`0` has no entry, returns the absent-sentinel `-1`. -/
theorem index_get_set_delete_witness : indexGet [] 0 = -1 :=
  index_get_set_delete.1 [] 0 rfl

/-- Modelled from the spec: the handler binding of a member: either an
available handler supplied by the external collaborator (spec section 4.4),
or a binding that depends on an unavailable external symbol. -/
inductive Binding where
  | available (handler : List Value → Value)
  | unavailable

/-- Modelled from the spec: the registry entry of one interface
(spec sections 3 and 4.2): its member map (name to handler binding) and the
set of member names marked unforgeable. -/
structure InterfaceEntry where
  members : List (String × Binding)
  unforgeableNames : List String

/-- Modelled from the spec: the fixed registry lookup of a member's handler
binding (spec section 4.2). -/
def lookupBinding (e : InterfaceEntry) (name : String) : Option Binding :=
  (e.members.find? (fun m => m.1 == name)).map (fun m => m.2)

/-- Modelled from the spec: the error kinds surfaced by invocation
(spec section 7). -/
inductive InvokeError where
  | noSuchMember
  | unavailableBinding
  deriving DecidableEq

/-- Modelled from the spec: instance-level member resolution
(spec section 4.2): unforgeable members resolve only through the fixed
registry entry, never through the mutable per-instance property slots;
any other member may be shadowed by an instance property slot. -/
def resolveMember (e : InterfaceEntry) (props : List (String × Value))
    (name : String) : Option Binding :=
  if name ∈ e.unforgeableNames then lookupBinding e name
  else
    match props.find? (fun p => p.1 == name) with
    | some p => some (.available (fun _ => p.2))
    | none => lookupBinding e name

/-- Modelled from the spec: the Dispatch Invoker (spec section 4.4) executes
the resolved member's handler on the arguments; a binding that depends on an
unavailable external symbol fails only when that member itself is
invoked. -/
def invokeMember (e : InterfaceEntry) (props : List (String × Value))
    (name : String) (args : List Value) : Except InvokeError Value :=
  match resolveMember e props name with
  | none => .error .noSuchMember
  | some .unavailable => .error .unavailableBinding
  | some (.available h) => .ok (h args)

/-- Modelled from the spec: constructing an instance binds a fresh identity
with empty property slots (spec section 3); construction does not resolve
the interface's member bindings. -/
def constructInstance (_e : InterfaceEntry) :
    Except InvokeError (List (String × Value)) :=
  .ok []

/-- Modelled from the spec: the registry entry of the `Unforgeable`
interface, whose `uno` and `dos` members (returning 1 and 2) are marked
unforgeable; the WebIDL declaration is not under `src/`. -/
def unforgeableEntry : InterfaceEntry :=
  ⟨[("uno", .available fun _ => .vnum 1), ("dos", .available fun _ => .vnum 2)],
   ["uno", "dos"]⟩

/-- C4: resolution of an unforgeable member goes only through the fixed
registry entry — for every interface entry and every mutation state of the
instance's property slots it equals the registry lookup — and every
`Unforgeable` instance returns 1 from `uno()` and 2 from `dos()` regardless
of its property slots, even when a slot tries to shadow the member. -/
theorem unforgeable_resolution_ignores_props :
    (∀ (e : InterfaceEntry) (props : List (String × Value)) (name : String),
      name ∈ e.unforgeableNames →
        resolveMember e props name = lookupBinding e name) ∧
    (∀ props, invokeMember unforgeableEntry props "uno" [] = .ok (.vnum 1)) ∧
    (∀ props, invokeMember unforgeableEntry props "dos" [] = .ok (.vnum 2)) ∧
    invokeMember unforgeableEntry [("uno", .vnum 99), ("dos", .vnull)] "uno" []
      = .ok (.vnum 1) := by
  refine ⟨fun e props name h => ?_, fun props => rfl, fun props => rfl, rfl⟩
  simp [resolveMember, h]

/-- Witness for C4: the unforgeable-resolution rule applied to the
`Unforgeable` interface with a property slot that attempts to shadow `uno`:
resolution still equals the fixed registry lookup. -/
theorem unforgeable_resolution_ignores_props_witness :
    resolveMember unforgeableEntry [("uno", .vnum 99)] "uno"
      = lookupBinding unforgeableEntry "uno" :=
  unforgeable_resolution_ignores_props.1 unforgeableEntry [("uno", .vnum 99)]
    "uno" (by simp [unforgeableEntry])

/-- Modelled from the spec: the registry entry of the `UndefinedMethod`
interface (spec section 8 concrete scenario): `okMethod` has an available
handler returning true, while another member's binding depends on an
unavailable external symbol; the WebIDL declaration is not under `src/`. -/
def undefinedMethodEntry : InterfaceEntry :=
  ⟨[("okMethod", .available fun _ => .vbool true),
    ("undefinedMethod", .unavailable)], []⟩

/-- C7: invocation of a member depends only on that member's own registry
entry (and the instance's slots), so an unavailable binding of one member
cannot affect another member; concretely, constructing `UndefinedMethod`
succeeds and `okMethod()` returns true even though the interface also
carries a member with an unavailable binding (which fails only when invoked
itself). -/
theorem unavailable_binding_is_isolated :
    (∀ (e₁ e₂ : InterfaceEntry) (props : List (String × Value))
        (name : String) (args : List Value),
      lookupBinding e₁ name = lookupBinding e₂ name →
      e₁.unforgeableNames = e₂.unforgeableNames →
        invokeMember e₁ props name args = invokeMember e₂ props name args) ∧
    constructInstance undefinedMethodEntry = .ok [] ∧
    invokeMember undefinedMethodEntry [] "okMethod" [] = .ok (.vbool true) ∧
    invokeMember undefinedMethodEntry [] "undefinedMethod" []
      = .error .unavailableBinding := by
  refine ⟨fun e₁ e₂ props name args h1 h2 => ?_, rfl, rfl, rfl⟩
  simp [invokeMember, resolveMember, h1, h2]

/-- Witness for C7: invoking `okMethod` on `UndefinedMethod` gives the same
result as on a variant interface entry that has no broken member at all. -/
theorem unavailable_binding_is_isolated_witness :
    invokeMember undefinedMethodEntry [] "okMethod" []
      = invokeMember ⟨[("okMethod", .available fun _ => .vbool true)], []⟩
          [] "okMethod" [] :=
  unavailable_binding_is_isolated.1 undefinedMethodEntry
    ⟨[("okMethod", .available fun _ => .vbool true)], []⟩ [] "okMethod" []
    rfl rfl

/-- Modelled from the spec: the state of the `MixinFoo` interface with its
mixin applied (spec sections 4.2 and 9): one explicitly-owned class-wide
shared default slot (class-level shared state, not per-instance) together
with the per-instance `bar` property slots, keyed by instance identity; the
WebIDL declarations and generated bindings are not under `src/`. -/
structure MixinFooState where
  sharedDefaultBar : ℤ
  bars : List (ℕ × ℤ)

/-- Modelled from the spec: constructing a `MixinFoo` instance with identity
`id` and initial `bar` value `v`. -/
def newFoo (st : MixinFooState) (id : ℕ) (v : ℤ) : MixinFooState :=
  { st with bars := (id, v) :: st.bars }

/-- Modelled from the spec: `MixinFoo::set_default_bar` writes the single
class-wide shared default slot. -/
def setDefaultBar (st : MixinFooState) (v : ℤ) : MixinFooState :=
  { st with sharedDefaultBar := v }

/-- Modelled from the spec: `MixinFoo::default_bar` reads the class-wide
shared default slot. -/
def defaultBar (st : MixinFooState) : ℤ :=
  st.sharedDefaultBar

/-- Modelled from the spec: reading the shared default through a particular
instance: all instances of the mixed-in interface read the same process-wide
slot. -/
def readDefaultVia (st : MixinFooState) (_id : ℕ) : ℤ :=
  st.sharedDefaultBar

/-- Modelled from the spec: an instance's own `bar` property read. -/
def barOf (st : MixinFooState) (id : ℕ) : ℤ :=
  match st.bars.find? (fun p => p.1 == id) with
  | some p => p.2
  | none => 0

/-- Modelled from the spec: an instance's own `bar` property write. -/
def setBarOf (st : MixinFooState) (id : ℕ) (v : ℤ) : MixinFooState :=
  { st with bars := (id, v) :: st.bars.filter (fun p => p.1 != id) }

/-- Modelled from the spec: `MixinFoo::add_to_bar` adds an amount to the
instance's own `bar` property. -/
def addToBar (st : MixinFooState) (id : ℕ) (amt : ℤ) : MixinFooState :=
  setBarOf st id (barOf st id + amt)

/-- C5: the mixin's shared default slot is class-wide: after any writer sets
it, every instance's read of the default returns the new value; the shared
value is independent of any single instance's own property state (instance
property writes do not change it, and writing it does not change any
instance's own property); and the `MixinFoo` scenario holds: after
`new(1)`, `bar() = 1`; after `set_default_bar(7)` and
`add_to_bar(default_bar())`, `bar() = 8`. -/
theorem mixin_shared_default_slot_class_wide :
    (∀ (st : MixinFooState) (id : ℕ) (v : ℤ),
      readDefaultVia (setDefaultBar st v) id = v) ∧
    (∀ (st : MixinFooState) (id id₂ : ℕ) (x : ℤ),
      readDefaultVia (setBarOf st id₂ x) id = readDefaultVia st id) ∧
    (∀ (st : MixinFooState) (id : ℕ) (x : ℤ),
      barOf (setDefaultBar st x) id = barOf st id) ∧
    (barOf (newFoo ⟨0, []⟩ 0 1) 0 = 1 ∧
      (let st₁ := setDefaultBar (newFoo ⟨0, []⟩ 0 1) 7
       barOf (addToBar st₁ 0 (defaultBar st₁)) 0 = 8)) :=
  ⟨fun _ _ _ => rfl, fun _ _ _ _ => rfl, fun _ _ _ => rfl, rfl, rfl⟩

/-- Modelled from the spec: a member map, mapping member names to their
signature sets (spec sections 3 and 4.2); the payload type `σ` stands for
the member's signature set. -/
abbrev MemberMap (σ : Type) := List (String × σ)

/-- Modelled from the spec: RegistrationError, the build-time error of the
error taxonomy (spec section 7). -/
inductive RegistrationError where
  | memberConflict
  deriving DecidableEq

/-- Modelled from the spec: a merge conflict — some member name declared in
both maps with a different signature set (spec section 4.2). -/
def conflictB {σ : Type} [DecidableEq σ] (a b : MemberMap σ) : Bool :=
  a.any fun p => b.any fun q => p.1 == q.1 && p.2 != q.2

/-- Modelled from the spec: `merge_partial` (spec sections 4.2 and 9),
whose implementation is not under `src/`: a conflict-checked set union over
member maps — additive only, failing with RegistrationError when a member
name is redeclared with a different signature set. -/
def mergeMembers {σ : Type} [DecidableEq σ] (a b : MemberMap σ) :
    Except RegistrationError (MemberMap σ) :=
  if conflictB a b then .error .memberConflict else .ok (a ++ b)

/-- Modelled from the spec: `lookup(interface_name, member_name)` restricted
to one interface's member map (spec section 4.2). -/
def lookupMember {σ : Type} (m : MemberMap σ) (n : String) : Option σ :=
  (m.find? (fun p => p.1 == n)).map (fun p => p.2)

/-- The observable result of a merge: its error, or the merged interface as
seen through member lookup. -/
def mergedLookup {σ : Type} [DecidableEq σ] (a b : MemberMap σ) (n : String) :
    Except RegistrationError (Option σ) :=
  (mergeMembers a b).map (fun m => lookupMember m n)

theorem conflictB_comm {σ : Type} [DecidableEq σ] (a b : MemberMap σ) :
    conflictB a b = conflictB b a := by
  rw [Bool.eq_iff_iff]
  simp only [conflictB, List.any_eq_true, Bool.and_eq_true, beq_iff_eq, bne_iff_ne]
  constructor
  · rintro ⟨p, hp, q, hq, h1, h2⟩; exact ⟨q, hq, p, hp, h1.symm, h2.symm⟩
  · rintro ⟨q, hq, p, hp, h1, h2⟩; exact ⟨p, hp, q, hq, h1.symm, h2.symm⟩

theorem no_conflict_agree {σ : Type} [DecidableEq σ] {a b : MemberMap σ}
    (h : conflictB a b = false) {p q : String × σ} (hp : p ∈ a) (hq : q ∈ b)
    (hname : p.1 = q.1) : p.2 = q.2 := by
  by_contra hne
  have hT : conflictB a b = true := by
    simp only [conflictB, List.any_eq_true, Bool.and_eq_true, beq_iff_eq, bne_iff_ne]
    exact ⟨p, hp, q, hq, hname, hne⟩
  rw [hT] at h
  exact Bool.noConfusion h

theorem lookupMember_append_comm {σ : Type} [DecidableEq σ]
    {a b : MemberMap σ} (h : conflictB a b = false) (n : String) :
    lookupMember (a ++ b) n = lookupMember (b ++ a) n := by
  simp only [lookupMember, List.find?_append]
  cases hfa : a.find? (fun p => p.1 == n) with
  | none => cases hfb : b.find? (fun p => p.1 == n) <;> simp [Option.or]
  | some pa =>
    cases hfb : b.find? (fun p => p.1 == n) with
    | none => simp [Option.or]
    | some qb =>
      have hpa := List.mem_of_find?_eq_some hfa
      have hqb := List.mem_of_find?_eq_some hfb
      have ha1 : pa.1 = n := by simpa using List.find?_some hfa
      have hb1 : qb.1 = n := by simpa using List.find?_some hfb
      have hval : pa.2 = qb.2 :=
        no_conflict_agree h hpa hqb (by rw [ha1, hb1])
      simp [Option.or, hval]

theorem mergedLookup_comm {σ : Type} [DecidableEq σ] (a b : MemberMap σ)
    (n : String) : mergedLookup a b n = mergedLookup b a n := by
  by_cases hc : conflictB a b = true
  · have hc' : conflictB b a = true := (conflictB_comm b a).trans hc
    simp [mergedLookup, mergeMembers, hc, hc']
  · have hc₁ : conflictB a b = false := by simpa using hc
    have hc₂ : conflictB b a = false := (conflictB_comm b a).trans hc₁
    simp [mergedLookup, mergeMembers, hc₁, hc₂, Except.map,
      lookupMember_append_comm hc₁ n]

theorem conflictB_append_left {σ : Type} [DecidableEq σ] (a b c : MemberMap σ) :
    conflictB (a ++ b) c = (conflictB a c || conflictB b c) := by
  simp [conflictB, List.any_append]

theorem conflictB_append_right {σ : Type} [DecidableEq σ] (a b c : MemberMap σ) :
    conflictB a (b ++ c) = (conflictB a b || conflictB a c) := by
  rw [Bool.eq_iff_iff]
  simp only [conflictB, List.any_eq_true, List.mem_append, Bool.or_eq_true]
  constructor
  · rintro ⟨p, hp, q, hq | hq, hpq⟩
    · exact Or.inl ⟨p, hp, q, hq, hpq⟩
    · exact Or.inr ⟨p, hp, q, hq, hpq⟩
  · rintro (⟨p, hp, q, hq, hpq⟩ | ⟨p, hp, q, hq, hpq⟩)
    · exact ⟨p, hp, q, Or.inl hq, hpq⟩
    · exact ⟨p, hp, q, Or.inr hq, hpq⟩

theorem mergeMembers_assoc {σ : Type} [DecidableEq σ] (a b c : MemberMap σ) :
    ((mergeMembers a b).bind fun m => mergeMembers m c)
      = ((mergeMembers b c).bind fun m => mergeMembers a m) := by
  by_cases h1 : conflictB a b = true <;> by_cases h2 : conflictB b c = true <;>
    by_cases h3 : conflictB a c = true <;>
      simp_all [mergeMembers, Except.bind, conflictB_append_left,
        conflictB_append_right, List.append_assoc]

/-- Modelled from the spec: the primary `PartialInterface` declaration with
its nullary members `un` and `deux` (the WebIDL declarations are not under
`src/`; the scenario is the `partial_interface` test). -/
def piPrimary : MemberMap (List (List ParameterSpec)) :=
  [("un", [[]]), ("deux", [[]])]

/-- Modelled from the spec: the first additional declaration fragment of
`PartialInterface`, adding the nullary member `trois`. -/
def piFragA : MemberMap (List (List ParameterSpec)) :=
  [("trois", [[]])]

/-- Modelled from the spec: the second additional declaration fragment of
`PartialInterface`, adding the nullary member `quatre`. -/
def piFragB : MemberMap (List (List ParameterSpec)) :=
  [("quatre", [[]])]

/-- Modelled from the spec: the handlers bound to `PartialInterface`'s
members, returning 1, 2, 3 and 4. -/
def piHandlers (n : String) : Option ℤ :=
  if n = "un" then some 1
  else if n = "deux" then some 2
  else if n = "trois" then some 3
  else if n = "quatre" then some 4
  else none

/-- Modelled from the spec: invoking a nullary member of `PartialInterface`
through the merged member map: the member must be exposed by the map for its
handler to run. -/
def invokePI (m : MemberMap (List (List ParameterSpec))) (n : String) :
    Option ℤ :=
  match lookupMember m n with
  | some _ => piHandlers n
  | none => none

/-- C6: merging member maps is a conflict-checked set union: commutative and
associative in its observable results (error or member lookup), so
registration order cannot change the final interface; it fails with
RegistrationError whenever a member name is redeclared with a different
signature set; and the merged `PartialInterface` exposes `un`, `deux`,
`trois`, `quatre` all callable (returning 1, 2, 3, 4) under either
registration order of its two declaration fragments. -/
theorem member_merge_order_independent :
    (∀ (σ : Type) [DecidableEq σ] (a b : MemberMap σ) (n : String),
      mergedLookup a b n = mergedLookup b a n) ∧
    (∀ (σ : Type) [DecidableEq σ] (a b c : MemberMap σ),
      ((mergeMembers a b).bind fun m => mergeMembers m c)
        = ((mergeMembers b c).bind fun m => mergeMembers a m)) ∧
    (∀ (σ : Type) [DecidableEq σ] (a b : MemberMap σ),
      conflictB a b = true → mergeMembers a b = .error .memberConflict) ∧
    ((mergeMembers piPrimary piFragA).bind fun m => mergeMembers m piFragB).map
        (fun m => (invokePI m "un", invokePI m "deux", invokePI m "trois",
                   invokePI m "quatre"))
      = .ok (some 1, some 2, some 3, some 4) ∧
    ((mergeMembers piPrimary piFragB).bind fun m => mergeMembers m piFragA).map
        (fun m => (invokePI m "un", invokePI m "deux", invokePI m "trois",
                   invokePI m "quatre"))
      = .ok (some 1, some 2, some 3, some 4) ∧
    mergeMembers piPrimary [("un", [[⟨.tint 32, false, none⟩]])]
      = .error .memberConflict := by
  refine ⟨fun σ _ a b n => mergedLookup_comm a b n,
          fun σ _ a b c => mergeMembers_assoc a b c,
          fun σ _ a b h => ?_, rfl, rfl, rfl⟩
  simp [mergeMembers, h]

/-- Witness for C6: the conflict rule applied at a concrete input: a
fragment that redeclares `un` with a different signature set fails with
RegistrationError. -/
theorem member_merge_order_independent_witness :
    mergeMembers [("un", ([[]] : List (List ParameterSpec)))]
        [("un", [[⟨.tint 32, false, none⟩]])]
      = .error .memberConflict :=
  member_merge_order_independent.2.2.1 (List (List ParameterSpec)) _ _ rfl

/-- Modelled from the spec: the signature of `NullableMethod.opt`, one
non-optional nullable 32-bit-integer parameter (the `nullable_method`
scenario; the WebIDL declaration is not under `src/`). -/
def nullableOptParams : List ParameterSpec :=
  [⟨.tnullable (.tint 32), false, none⟩]

/-- Modelled from the spec: calling `NullableMethod.opt(x)`: the argument is
resolved against the nullable signature, and the handler returns the present
value incremented by one, or the no-value marker when the argument carried
no value; the method's return is itself nullable. -/
def nullableOpt (arg : Value) : Except ResolveError Value :=
  match resolveSignature nullableOptParams [.given arg] with
  | .ok [.cint _ n] => .ok (.vnum ((n + 1 : ℤ) : ℚ))
  | .ok _ => .ok .vnull
  | .error e => .error e

/-- C8: coercion to nullable(T) maps the explicit no-value marker to the
absent coerced value and otherwise delegates to T's coercion, for every
value and every target type; and `NullableMethod.opt` preserves this:
`opt(Some 15)` returns `Some 16` (the number 16) and `opt(None)` returns
`None` (the no-value marker). -/
theorem nullable_coercion_delegates :
    (∀ (v : Value) (t : TargetType),
      coerce v (.tnullable t) =
        match v with
        | .vnull => .ok .cnone
        | _ => coerce v t) ∧
    nullableOpt (.vnum 15) = .ok (.vnum 16) ∧
    nullableOpt .vnull = .ok .vnull := by
  refine ⟨fun v t => ?_, rfl, rfl⟩
  cases v <;> rfl

end BindingModel

namespace WebAudio

/-- An `f32` value at the precision this embedding needs: NaN, an infinity,
or a finite value represented exactly.  `FmOsc::set_gain` only compares its
argument against the exactly representable constants 0.0 and 1.0 and stores
it, so the IEEE-754 comparison semantics is modelled exactly. -/
inductive F32 where
  | nan
  | negInf
  | posInf
  | finite (q : ℚ)
  deriving DecidableEq

/-- IEEE-754 `>` on `F32`: every comparison involving NaN is false. -/
def fgt : F32 → F32 → Bool
  | .nan, _ => false
  | _, .nan => false
  | .finite a, .finite b => a > b
  | .posInf, .posInf => false
  | .posInf, _ => true
  | _, .posInf => false
  | .negInf, _ => false
  | .finite _, .negInf => true

/-- IEEE-754 `<` on `F32`. -/
def flt (a b : F32) : Bool := fgt b a

/-- The value `FmOsc::set_gain` stores into the gain node, embedded from
`examples/webaudio/src/lib.rs`:
`if gain > 1.0 { gain = 1.0; } if gain < 0.0 { gain = 0.0; }` and then
`self.gain.gain().set_value(gain)`. -/
def set_gain (gain : F32) : F32 :=
  let g₁ := if fgt gain (.finite 1) then .finite 1 else gain
  if flt g₁ (.finite 0) then .finite 0 else g₁

/-- The stored value is a finite value inside the closed interval [0, 1]. -/
def inUnitInterval : F32 → Prop
  | .finite q => 0 ≤ q ∧ q ≤ 1
  | _ => False

/-- Counterexample to C9 as stated: at the input NaN, `set_gain` stores NaN
— both clamping comparisons are false on NaN — so the stored gain is not in
the closed interval [0.0, 1.0]. -/
theorem set_gain_nan_counterexample :
    set_gain .nan = .nan ∧ ¬ inUnitInterval (set_gain .nan) :=
  ⟨rfl, fun h => h⟩

/-- C9 (amended): for every non-NaN input, `FmOsc::set_gain` stores a value
in the closed interval [0.0, 1.0]: inputs comparing greater than 1.0 are
clamped to 1.0, inputs comparing less than 0.0 are clamped to 0.0. -/
theorem set_gain_clamps_to_unit_interval :
    (∀ x : F32, fgt x (.finite 1) = true → set_gain x = .finite 1) ∧
    (∀ x : F32, flt x (.finite 0) = true → set_gain x = .finite 0) ∧
    (∀ x : F32, x ≠ .nan → inUnitInterval (set_gain x)) := by
  refine ⟨fun x h => ?_, fun x h => ?_, fun x hx => ?_⟩
  · cases x with
    | nan => simp [fgt] at h
    | negInf => simp [fgt] at h
    | posInf => rfl
    | finite q =>
      have hq : (1 : ℚ) < q := by simpa [fgt] using h
      have hq0 : ¬ ((0 : ℚ) > 1) := by norm_num
      simp [set_gain, fgt, flt, hq, hq0]
  · cases x with
    | nan => simp [flt, fgt] at h
    | posInf => simp [flt, fgt] at h
    | negInf => rfl
    | finite q =>
      have hq : q < 0 := by simpa [flt, fgt] using h
      have hq1 : ¬ ((1 : ℚ) < q) := by linarith
      simp [set_gain, fgt, flt, hq, hq1]
  · cases x with
    | nan => exact absurd rfl hx
    | posInf => exact ⟨by norm_num, le_refl 1⟩
    | negInf => exact ⟨le_refl 0, by norm_num⟩
    | finite q =>
      by_cases h1 : (1 : ℚ) < q
      · have hq0 : ¬ ((0 : ℚ) > 1) := by norm_num
        simp [set_gain, fgt, flt, h1, hq0, inUnitInterval]
      · by_cases h0 : q < 0
        · simp [set_gain, fgt, flt, h1, h0, inUnitInterval]
        · have : (0 : ℚ) ≤ q := le_of_not_lt h0
          simpa [set_gain, fgt, flt, h1, h0, inUnitInterval] using
            ⟨this, le_of_not_lt h1⟩

/-- Witness for C9 (amended): the clamps and the interval bound applied at
the concrete inputs 2.0, -3.0 and 1/2. -/
theorem set_gain_clamps_to_unit_interval_witness :
    set_gain (.finite 2) = .finite 1 ∧ set_gain (.finite (-3)) = .finite 0 ∧
      inUnitInterval (set_gain (.finite (1 / 2))) :=
  ⟨set_gain_clamps_to_unit_interval.1 (.finite 2) (by norm_num [fgt]),
   set_gain_clamps_to_unit_interval.2.1 (.finite (-3)) (by norm_num [flt, fgt]),
   set_gain_clamps_to_unit_interval.2.2 (.finite (1 / 2)) (by simp)⟩

/-- The mutable audio-parameter values touched by `FmOsc`'s frequency
methods, embedded from `examples/webaudio/src/lib.rs` over exact reals: the
primary oscillator frequency, the FM oscillator frequency, the FM gain
value, and the two ratio fields. -/
structure FmOscState where
  primaryFreq : ℝ
  fmOscFreq : ℝ
  fmGainValue : ℝ
  fmFreqRatio : ℝ
  fmGainRatio : ℝ

/-- `FmOsc::set_primary_frequency` from `examples/webaudio/src/lib.rs`:
stores `freq` into the primary oscillator's frequency and updates both the
FM oscillator's frequency (`fm_freq_ratio * freq`) and the FM gain
(`fm_gain_ratio * freq`). -/
def setPrimaryFrequency (s : FmOscState) (freq : ℝ) : FmOscState :=
  { s with
    primaryFreq := freq
    fmOscFreq := s.fmFreqRatio * freq
    fmGainValue := s.fmGainRatio * freq }

/-- `midi_to_freq` from `examples/webaudio/src/lib.rs`:
`27.5 * 2^((note - 21) / 12)`. -/
noncomputable def midiToFreq (note : ℕ) : ℝ :=
  27.5 * (2 : ℝ) ^ (((note : ℝ) - 21) / 12)

/-- `FmOsc::set_note` from `examples/webaudio/src/lib.rs`: converts the
midi note to a frequency and delegates to `set_primary_frequency`. -/
noncomputable def setNote (s : FmOscState) (note : ℕ) : FmOscState :=
  setPrimaryFrequency s (midiToFreq note)

/-- C10: for every state and note, `set_note note` produces exactly the
state `set_primary_frequency (midi_to_freq note)` produces, and after
either call the FM oscillator's frequency equals `fm_freq_ratio` times the
primary frequency and the FM gain equals `fm_gain_ratio` times the primary
frequency. -/
theorem set_note_equiv_set_primary_frequency :
    (∀ (s : FmOscState) (note : ℕ),
      setNote s note = setPrimaryFrequency s (midiToFreq note)) ∧
    (∀ (s : FmOscState) (note : ℕ),
      (setNote s note).fmOscFreq
          = (setNote s note).fmFreqRatio * (setNote s note).primaryFreq ∧
      (setNote s note).fmGainValue
          = (setNote s note).fmGainRatio * (setNote s note).primaryFreq) ∧
    (∀ (s : FmOscState) (freq : ℝ),
      (setPrimaryFrequency s freq).fmOscFreq
          = (setPrimaryFrequency s freq).fmFreqRatio
              * (setPrimaryFrequency s freq).primaryFreq ∧
      (setPrimaryFrequency s freq).fmGainValue
          = (setPrimaryFrequency s freq).fmGainRatio
              * (setPrimaryFrequency s freq).primaryFreq) :=
  ⟨fun _ _ => rfl, fun _ _ => ⟨rfl, rfl⟩, fun _ _ => ⟨rfl, rfl⟩⟩

end WebAudio
